import Mathlib

/-!
Shallow embedding of the zig_with_cargo build orchestrator.

Source layout:
* `build.rs` — the top-level cargo build script (`main`).
* `crates/zig_build/src/lib.rs` — the orchestrator `lib(path, name)` plus
  cfg-based platform dispatch of `zig_bin`.
* `crates/zig_build_bin_linux_x86_64/src/lib.rs` — linux provisioner `zig_bin`
  (checks whether the binary path exists, extracts the bundled tarball if not).
* `crates/zig_build_bin_windows_x86_64/src/lib.rs` — windows provisioner
  `zig_bin` (computes a path into the crate directory, no extraction).
* `crates/zig_build_linux_x86_64/src/lib.rs` — older linux provisioner
  `zig_bin` (always extracts, no existence check).

The filesystem is modelled as the list of paths that exist; a tar archive is
modelled as the list of relative paths it contains (the actual `.tar.xz`
payload is repository data outside `src/`); extraction (`Archive::unpack`)
adds every archive entry under the destination directory.
-/

namespace ZigWithCargo

/-- Filesystem model: the list of paths that currently exist. -/
abbrev FS := List String

/-- Path-existence check (`Path::new(&p).exists()`). -/
def hasPath (fs : FS) (p : String) : Bool := decide (p ∈ fs)

/-- Model of `Archive::unpack(dest)`: every relative path contained in the
archive comes to exist under `dest`. -/
def unpack (archive : List String) (dest : String) (fs : FS) : FS :=
  archive.map (fun rel => dest ++ "/" ++ rel) ++ fs

/-- Result of one `zig_bin` call: the returned path, the filesystem after the
call, and whether the call performed filesystem writes (ran extraction). -/
structure ProvisionResult where
  path : String
  fs : FS
  wrote : Bool
deriving DecidableEq

/-- `RELEASE` constant of `zig_build_bin_linux_x86_64`. -/
def binLinuxRELEASE : String := "linux-x86_64-0.5.0"

/-- Relative path of the compiler binary inside the linux tarball.  The
tarball is rooted at the version-qualified directory `zig-linux-x86_64-0.5.0`,
so the binary sits at this relative path after `unpack(out_dir)`. -/
def binLinuxRelPath : String := "zig-linux-x86_64-0.5.0/zig"

/-- The `bin_path` computed by `zig_build_bin_linux_x86_64::zig_bin`:
`out_dir + "/zig-" + RELEASE + "/zig"`. -/
def binLinuxBinPath (out_dir : String) : String :=
  out_dir ++ "/zig-" ++ binLinuxRELEASE ++ "/zig"

/-- `zig_build_bin_linux_x86_64::zig_bin`: if `bin_path` does not exist,
unpack the bundled tarball into `out_dir`; return `bin_path`. -/
def zig_bin_binLinux (archive : List String) (out_dir : String) (fs : FS) :
    ProvisionResult :=
  if hasPath fs (binLinuxBinPath out_dir) then ⟨binLinuxBinPath out_dir, fs, false⟩
  else ⟨binLinuxBinPath out_dir, unpack archive out_dir fs, true⟩

/-- `zig_build_linux_x86_64::zig_bin` (the older provisioner crate): always
unpacks the bundled tarball into `out_dir + "/zig_build_linux_x86_64"` —
there is no existence check — and returns the binary path inside it. -/
def zig_bin_oldLinux (archive : List String) (out_dir : String) (fs : FS) :
    ProvisionResult :=
  let zig_dist_dir := out_dir ++ "/zig_build_linux_x86_64"
  ⟨zig_dist_dir ++ "/zig-linux-x86_64-0.5.0/zig", unpack archive zig_dist_dir fs, true⟩

/-- `RELEASE` constant of `zig_build_bin_windows_x86_64`. -/
def windowsRELEASE : String := "windows-x86_64-0.5.0+80ff549e2"

/-- Crate directory obtained from `Path::new(file!()).parent().parent()` in
the windows provisioner crate. -/
def windowsCrateDir : String := "crates/zig_build_bin_windows_x86_64"

/-- `zig_build_bin_windows_x86_64::zig_bin`: joins the crate directory with
`zig-{RELEASE}/zig.exe` and returns it.  It performs no existence check and
no extraction — the filesystem is untouched. -/
def zig_bin_windows (fs : FS) : ProvisionResult :=
  ⟨windowsCrateDir ++ "/zig-" ++ windowsRELEASE ++ "/zig.exe", fs, false⟩

/-- Build directives: the `cargo:` line-oriented instructions the build
scripts print to the directive channel (stdout). -/
inductive Directive
  | rerunIfChanged (p : String)
  | linkSearch (dir : String)
  | linkLib (name : String)
deriving DecidableEq

/-- Observable pipeline events of one compilation unit, recorded in the order
the code performs them: toolchain provisioning (`zig_bin()`), the host →
foreign header write (`cbindgen ... write_to_file(src/rust.h)`), the compiler
subprocess (`Command::output()`), the foreign → host binding write
(`bindgen ... write_to_file`), and each emitted directive. -/
inductive Event
  | provision
  | bindingA
  | invoke
  | bindingB
  | directive (d : Directive)
deriving DecidableEq

/-- Outcome of the compiler subprocess: `Err(_)` from `Command::output()`, or
an exit with the given code and captured stderr bytes. -/
inductive InvokeOutcome
  | execError
  | exited (code : Nat) (stderr : List Nat)
deriving DecidableEq

/-- One pipeline execution: its ordered event trace and whether it reached
the end (Rust `panic!` / `process::exit(1)` stop the run). -/
structure PipelineRun where
  trace : List Event
  success : Bool
deriving DecidableEq

/-- `zig_build::lib(path, name)` from `crates/zig_build/src/lib.rs`: resolve
the toolchain (`zig_bin()`), write the cbindgen header, run
`zig build-lib ...`; on success write the bindgen bindings and print the
`rustc-link-search` and `rustc-link-lib` directives; on failure print the
diagnostic and `process::exit(1)` before any directive. -/
def libRun (path name out_dir project_dir : String) (outcome : InvokeOutcome) :
    PipelineRun :=
  match outcome with
  | .execError => ⟨[.provision, .bindingA, .invoke], false⟩
  | .exited 0 _ =>
    ⟨[.provision, .bindingA, .invoke, .bindingB,
      .directive (.linkSearch (out_dir ++ "/zig-lib-" ++ name)),
      .directive (.linkLib name)], true⟩
  | .exited (_ + 1) _ => ⟨[.provision, .bindingA, .invoke], false⟩

/-- `main` from `build.rs`: the compiler path is the constant `"./zig"` (no
provisioning stage and no cbindgen step); run the compiler; on success print
`rerun-if-changed`, `rustc-link-search`, `rustc-link-lib` and only then run
bindgen; on failure `panic!` before any directive. -/
def buildRsRun (project_dir out_dir : String) (outcome : InvokeOutcome) :
    PipelineRun :=
  match outcome with
  | .execError => ⟨[.invoke], false⟩
  | .exited 0 _ =>
    ⟨[.invoke,
      .directive (.rerunIfChanged (project_dir ++ "/src/ziggy.zig")),
      .directive (.linkSearch (out_dir ++ "/zig-lib")),
      .directive (.linkLib "ziggy"),
      .bindingB], true⟩
  | .exited (_ + 1) _ => ⟨[.invoke], false⟩

/-- Directives contained in a trace, in emission order. -/
def directivesOf : List Event → List Directive
  | [] => []
  | .directive d :: rest => d :: directivesOf rest
  | .provision :: rest => directivesOf rest
  | .bindingA :: rest => directivesOf rest
  | .invoke :: rest => directivesOf rest
  | .bindingB :: rest => directivesOf rest

/-- `precedes a b tr` holds when some occurrence of `a` appears strictly
before some occurrence of `b` in the trace `tr`. -/
def precedes (a b : Event) : List Event → Bool
  | [] => false
  | x :: rest => (decide (x = a) && decide (b ∈ rest)) || precedes a b rest

/-- Rust `{:?}` (Debug) rendering of a `Vec<u8>`, e.g. `[101, 114, 114]`. -/
def rustDebugByteList (bs : List Nat) : String :=
  "[" ++ String.intercalate ", " (bs.map toString) ++ "]"

/-- Failure message of `build.rs` on a nonzero compiler exit:
`panic!("zig compilation failed: {:?}", output.stderr)` — the raw stderr
byte vector is Debug-formatted, not decoded to text. -/
def buildRsCompileFailMsg (stderr : List Nat) : String :=
  "zig compilation failed: " ++ rustDebugByteList stderr

/-- Failure message printed by `zig_build::lib` on a nonzero compiler exit,
in the branch where the captured stderr is valid UTF-8 with text
`stderrText` (the `Ok` branch of `str::from_utf8`). -/
def libCompileFailMsg (zig_bin : String) (code : Nat) (stderrText : String) :
    String :=
  "  process didn't exit successfully: `" ++ zig_bin ++ "` (exit code: "
    ++ toString code ++ ")\n--- stderr\n" ++ stderrText

/-- Argument list of the compiler subprocess in `build.rs`. -/
def buildRsArgs (lib_dir src_path : String) : List String :=
  ["build-lib", "-fPIC", "--bundle-compiler-rt", "--output-dir", lib_dir, src_path]

/-- Argument list of the compiler subprocess in `zig_build::lib`. -/
def libArgs (lib_dir src_path : String) : List String :=
  ["build-lib", "--library", "c", "-fPIC", "--bundle-compiler-rt",
   "--output-dir", lib_dir, src_path]

/-- Whether `a` followed immediately by `b` occurs in an argument list. -/
def adjacentPair (a b : String) : List String → Bool
  | [] => false
  | [_] => false
  | x :: y :: rest => (decide (x = a) && decide (y = b)) || adjacentPair a b (y :: rest)

/-- UTF-8 bytes of the `.zig` extension. -/
def zigExt : List Nat := [46, 122, 105, 103]

/-- UTF-8 bytes of the `.rs` extension. -/
def rsExt : List Nat := [46, 114, 115]

/-- Rust `str::is_char_boundary`: true at 0, at the byte length of the
string, and at any byte that is not a UTF-8 continuation byte
(`0x80..=0xBF`). -/
def isCharBoundary (s : List Nat) (i : Nat) : Bool :=
  i == 0 ||
    (match s[i]? with
     | some b => decide (b < 128) || decide (192 ≤ b)
     | none => i == s.length)

/-- Rust string slicing `&s[..i]` on UTF-8 bytes: the first `i` bytes when
`i` is a char boundary of `s`, `none` (a panic) otherwise. -/
def rustSliceTo (s : List Nat) (i : Nat) : Option (List Nat) :=
  if isCharBoundary s i then some (s.take i) else none

/-- Binding output path computed by `zig_build::lib`:
`src_path[..src_path.len() - 4].to_string() + ".rs"` over the UTF-8 bytes of
the concatenated source path.  `none` models a panic: either the `usize`
subtraction underflows / the slice end is past the string (byte length < 4),
or the cut does not fall on a char boundary. -/
def bindingOutBytes (src_path : List Nat) : Option (List Nat) :=
  if src_path.length < 4 then none
  else (rustSliceTo src_path (src_path.length - 4)).map (fun p => p ++ rsExt)

/-- Overwriting file write (bindgen's `write_to_file`): file contents keyed
by path; the written path maps to exactly the new content, independent of
any previously stored content. -/
def writeFileAt (contents : String → Option String) (p c : String) :
    String → Option String :=
  fun q => if q = p then some c else contents q

/-- Host platform, as seen by the cfg atoms of `zig_build/src/lib.rs`. -/
structure HostTriple where
  arch : String
  os : String
deriving DecidableEq

/-- cfg atom `target_arch = "x86_64"`. -/
def cfgX8664 (t : HostTriple) : Bool := decide (t.arch = "x86_64")

/-- cfg atom `windows` (target family). -/
def cfgWindows (t : HostTriple) : Bool := decide (t.os = "windows")

/-- cfg atom `unix` (target family): set on both linux and macos hosts. -/
def cfgUnix (t : HostTriple) : Bool :=
  decide (t.os = "linux") || decide (t.os = "macos")

/-- The bare identifier `linux` used in `cfg(any(linux, unix))` is not a cfg
atom rustc ever sets (the real atom is `target_os = "linux"`), so it is
false on every host. -/
def cfgBareLinux (_ : HostTriple) : Bool := false

/-- The bare identifier `macos` used in
`cfg(all(target_arch = "x86_64", macos))` is not a cfg atom rustc ever sets
(the real atom is `target_os = "macos"`), so it is false on every host. -/
def cfgBareMacos (_ : HostTriple) : Bool := false

/-- `#[cfg(all(target_arch = "x86_64", any(linux, unix)))]` guarding
`use zig_build_bin_linux_x86_64::zig_bin`. -/
def importsLinuxZigBin (t : HostTriple) : Bool :=
  cfgX8664 t && (cfgBareLinux t || cfgUnix t)

/-- `#[cfg(all(target_arch = "x86_64", windows))]` guarding
`use zig_build_bin_windows_x86_64::zig_bin`. -/
def importsWindowsZigBin (t : HostTriple) : Bool :=
  cfgX8664 t && cfgWindows t

/-- `#[cfg(all(target_arch = "x86_64", macos))]` guarding
`use zig_build_bin_macos_x86_64::zig_bin`. -/
def importsMacosZigBin (t : HostTriple) : Bool :=
  cfgX8664 t && cfgBareMacos t

lemma unpack_entry_eq (out : String) :
    out ++ "/" ++ binLinuxRelPath = binLinuxBinPath out := by
  unfold binLinuxRelPath binLinuxBinPath binLinuxRELEASE
  rw [String.append_assoc, String.append_assoc, String.append_assoc]
  congr 1

lemma binPath_mem_unpack (archive : List String) (out : String) (fs : FS)
    (h : binLinuxRelPath ∈ archive) :
    binLinuxBinPath out ∈ unpack archive out fs := by
  have h2 : out ++ "/" ++ binLinuxRelPath ∈ archive.map (fun rel => out ++ "/" ++ rel) :=
    List.mem_map_of_mem (fun rel => out ++ "/" ++ rel) h
  rw [unpack_entry_eq] at h2
  exact List.mem_append_left fs h2

/-- The path returned by `zig_build_bin_linux_x86_64::zig_bin` is always
`bin_path`, whichever branch ran. -/
lemma zig_bin_binLinux_path (archive : List String) (out : String) (fs : FS) :
    (zig_bin_binLinux archive out fs).path = binLinuxBinPath out := by
  unfold zig_bin_binLinux
  split <;> rfl

/-- When `bin_path` already exists, `zig_build_bin_linux_x86_64::zig_bin` is a
pure no-op: same path returned, no writes, filesystem unchanged. -/
lemma zig_bin_binLinux_present (archive : List String) (out : String) (fs : FS)
    (hp : hasPath fs (binLinuxBinPath out) = true) :
    zig_bin_binLinux archive out fs = ⟨binLinuxBinPath out, fs, false⟩ := by
  unfold zig_bin_binLinux
  rw [if_pos hp]

/-- After any `zig_build_bin_linux_x86_64::zig_bin` call whose archive holds
the binary, the returned binary path exists in the resulting filesystem. -/
lemma hasPath_after_binLinux (archive : List String) (out : String) (fs : FS)
    (h : binLinuxRelPath ∈ archive) :
    hasPath (zig_bin_binLinux archive out fs).fs (binLinuxBinPath out) = true := by
  rw [hasPath, decide_eq_true_eq]
  unfold zig_bin_binLinux
  by_cases hp : hasPath fs (binLinuxBinPath out) = true
  · rw [if_pos hp]
    rw [hasPath, decide_eq_true_eq] at hp
    exact hp
  · rw [if_neg hp]
    exact binPath_mem_unpack archive out fs h

/-- C1 (amended): for `zig_build_bin_linux_x86_64::zig_bin` — the provisioner
variant the orchestrator imports — calling twice against the same scratch
directory yields the identical resolved binary path, and the second call
performs zero filesystem writes (extraction is skipped because the resolved
path exists after the first call).  Hypothesis: the bundled tarball contains
the compiler binary at its version-qualified relative path. -/
theorem c1_binLinux_zig_bin_idempotent (archive : List String) (out : String)
    (fs : FS) (h : binLinuxRelPath ∈ archive) :
    (zig_bin_binLinux archive out (zig_bin_binLinux archive out fs).fs).path
        = (zig_bin_binLinux archive out fs).path
      ∧ (zig_bin_binLinux archive out (zig_bin_binLinux archive out fs).fs).wrote
        = false
      ∧ (zig_bin_binLinux archive out (zig_bin_binLinux archive out fs).fs).fs
        = (zig_bin_binLinux archive out fs).fs := by
  rw [zig_bin_binLinux_present archive out (zig_bin_binLinux archive out fs).fs
    (hasPath_after_binLinux archive out fs h)]
  exact ⟨(zig_bin_binLinux_path archive out fs).symm, rfl, rfl⟩

/-- Witness for C1's theorem at a concrete archive, scratch directory and
empty initial filesystem. -/
theorem c1_witness :
    (zig_bin_binLinux [binLinuxRelPath] "/out"
        (zig_bin_binLinux [binLinuxRelPath] "/out" []).fs).wrote = false :=
  (c1_binLinux_zig_bin_idempotent [binLinuxRelPath] "/out" [] (by decide)).2.1

/-- C1 counterexample: the claim is false for the other cited provisioner,
`zig_build_linux_x86_64::zig_bin` — it has no existence check, so the second
call re-extracts (performs filesystem writes) and the filesystem grows. -/
theorem c1_counterexample_oldLinux_reextracts :
    (zig_bin_oldLinux ["zig-linux-x86_64-0.5.0/zig"] "/out"
        (zig_bin_oldLinux ["zig-linux-x86_64-0.5.0/zig"] "/out" []).fs).wrote = true
      ∧ (zig_bin_oldLinux ["zig-linux-x86_64-0.5.0/zig"] "/out"
          (zig_bin_oldLinux ["zig-linux-x86_64-0.5.0/zig"] "/out" []).fs).fs
        ≠ (zig_bin_oldLinux ["zig-linux-x86_64-0.5.0/zig"] "/out" []).fs := by
  exact ⟨rfl, by decide⟩

/-- C5 (amended): the linux provisioner `zig_build_bin_linux_x86_64::zig_bin`
guarantees the returned binary path exists on return (extracting the bundled
tarball when absent); the windows provisioner `zig_bin` merely computes the
expected bundled path and performs no existence check and no extraction, so
it provides no such guarantee. -/
theorem c5_zig_bin_returns_existing_binary (archive : List String)
    (out : String) (fs : FS) (h : binLinuxRelPath ∈ archive) :
    hasPath (zig_bin_binLinux archive out fs).fs
        (zig_bin_binLinux archive out fs).path = true
      ∧ ∀ fs2 : FS, (zig_bin_windows fs2).fs = fs2
        ∧ (zig_bin_windows fs2).wrote = false := by
  constructor
  · rw [zig_bin_binLinux_path archive out fs]
    exact hasPath_after_binLinux archive out fs h
  · exact fun fs2 => ⟨rfl, rfl⟩

/-- Witness for C5's theorem at a concrete archive, scratch directory and
empty initial filesystem. -/
theorem c5_witness :
    hasPath (zig_bin_binLinux [binLinuxRelPath] "/out" []).fs
        (zig_bin_binLinux [binLinuxRelPath] "/out" []).path = true :=
  (c5_zig_bin_returns_existing_binary [binLinuxRelPath] "/out" [] (by decide)).1

/-- C5 counterexample: on the windows variant the claim fails — starting from
a filesystem in which nothing exists, `zig_bin` returns a path that still
does not exist (nothing was checked or extracted), so the binary is not
executable-ready at the moment of return. -/
theorem c5_counterexample_windows_no_provisioning :
    hasPath (zig_bin_windows []).fs (zig_bin_windows []).path = false := by
  decide

/-- C2 (amended): on a successful unit, `build.rs` emits exactly the three
claimed directives (rebuild-trigger on the original source path, link-search
on the unit's output directory, link-library naming the static library);
`zig_build::lib` emits exactly two — link-search and link-library — and no
rebuild-trigger directive. -/
theorem c2_directives_of_successful_unit (project_dir out_dir path name : String)
    (st : List Nat) :
    directivesOf (buildRsRun project_dir out_dir (.exited 0 st)).trace
        = [Directive.rerunIfChanged (project_dir ++ "/src/ziggy.zig"),
           Directive.linkSearch (out_dir ++ "/zig-lib"),
           Directive.linkLib "ziggy"]
      ∧ directivesOf (libRun path name out_dir project_dir (.exited 0 st)).trace
        = [Directive.linkSearch (out_dir ++ "/zig-lib-" ++ name),
           Directive.linkLib name] :=
  ⟨rfl, rfl⟩

/-- C2 counterexample: a successful `zig_build::lib` unit emits two build
directives, not three, and none of them is a rebuild-trigger. -/
theorem c2_counterexample_lib_emits_two_directives :
    (directivesOf (libRun "src/ziggy.zig" "ziggy" "/o" "/p" (.exited 0 [])).trace).length
        = 2
      ∧ directivesOf (libRun "src/ziggy.zig" "ziggy" "/o" "/p" (.exited 0 [])).trace
        = [Directive.linkSearch "/o/zig-lib-ziggy", Directive.linkLib "ziggy"] := by
  decide

/-- C3 (amended): within one successful `zig_build::lib` unit, provisioning
strictly precedes compiler invocation, invocation strictly precedes the
Direction-B binding write, and that write strictly precedes the emission of
each build directive.  (In `build.rs` the directives are emitted before the
binding write — see the counterexample.) -/
theorem c3_lib_pipeline_order (path name out_dir project_dir : String)
    (st : List Nat) :
    precedes .provision .invoke
        (libRun path name out_dir project_dir (.exited 0 st)).trace = true
      ∧ precedes .invoke .bindingB
        (libRun path name out_dir project_dir (.exited 0 st)).trace = true
      ∧ precedes .bindingB
          (.directive (.linkSearch (out_dir ++ "/zig-lib-" ++ name)))
          (libRun path name out_dir project_dir (.exited 0 st)).trace = true
      ∧ precedes .bindingB (.directive (.linkLib name))
          (libRun path name out_dir project_dir (.exited 0 st)).trace = true := by
  refine ⟨?_, ?_, ?_, ?_⟩ <;> simp [libRun, precedes]

/-- C3 counterexample: in `build.rs` the Direction-B binding write does not
precede directive emission — the rebuild-trigger directive is printed before
the binding file is written. -/
theorem c3_counterexample_buildRs_directives_before_binding :
    precedes Event.bindingB
        (Event.directive (Directive.rerunIfChanged "/p/src/ziggy.zig"))
        (buildRsRun "/p" "/o" (.exited 0 [])).trace = false
      ∧ precedes (Event.directive (Directive.rerunIfChanged "/p/src/ziggy.zig"))
        Event.bindingB (buildRsRun "/p" "/o" (.exited 0 [])).trace = true := by
  decide

/-- C6 (confirmed): whenever the compiler subprocess fails to execute or
exits nonzero, both pipelines abort before emitting any build directive —
zero directives appear in the trace and the run is not successful. -/
theorem c6_no_directives_on_failure (project_dir out_dir path name : String)
    (c : Nat) (st : List Nat) :
    directivesOf (buildRsRun project_dir out_dir .execError).trace = []
      ∧ (buildRsRun project_dir out_dir .execError).success = false
      ∧ directivesOf (buildRsRun project_dir out_dir (.exited (c + 1) st)).trace = []
      ∧ (buildRsRun project_dir out_dir (.exited (c + 1) st)).success = false
      ∧ directivesOf (libRun path name out_dir project_dir .execError).trace = []
      ∧ (libRun path name out_dir project_dir .execError).success = false
      ∧ directivesOf (libRun path name out_dir project_dir (.exited (c + 1) st)).trace = []
      ∧ (libRun path name out_dir project_dir (.exited (c + 1) st)).success = false :=
  ⟨rfl, rfl, rfl, rfl, rfl, rfl, rfl, rfl⟩

lemma isCharBoundary_append_zig (base : List Nat) :
    isCharBoundary (base ++ zigExt) base.length = true := by
  have hget : (base ++ zigExt)[base.length]? = some 46 := by
    rw [List.getElem?_append_right (le_refl _), Nat.sub_self]
    rfl
  simp [isCharBoundary, hget]

lemma bindingOutBytes_zig (base : List Nat) :
    bindingOutBytes (base ++ zigExt) = some (base ++ rsExt) := by
  unfold bindingOutBytes rustSliceTo
  have hlen : (base ++ zigExt).length = base.length + 4 := by simp [zigExt]
  rw [hlen]
  rw [if_neg (by omega : ¬ (base.length + 4 < 4)), Nat.add_sub_cancel]
  rw [if_pos (isCharBoundary_append_zig base)]
  simp [List.take_left]

/-- C4 (amended): in `zig_build::lib`, when the compiler exits nonzero and
its captured stderr is valid UTF-8 text, the emitted diagnostic contains
that text verbatim, as a suffix of the message.  (`build.rs` instead
Debug-formats the raw stderr bytes — see the counterexample.) -/
theorem c4_lib_surfaces_stderr_verbatim (zig_bin : String) (code : Nat)
    (stderrText : String) :
    ∃ pre : String, libCompileFailMsg zig_bin code stderrText = pre ++ stderrText :=
  ⟨"  process didn't exit successfully: `" ++ zig_bin ++ "` (exit code: "
    ++ toString code ++ ")\n--- stderr\n", rfl⟩

/-- C4 counterexample: for stderr text `err` (bytes `[101, 114, 114]`), the
`build.rs` failure message renders the Debug form of the byte vector, and the
original diagnostic text does not occur anywhere in the surfaced message —
it is reformatted, not verbatim. -/
theorem c4_counterexample_buildRs_debug_formats_stderr :
    buildRsCompileFailMsg [101, 114, 114] = "zig compilation failed: [101, 114, 114]"
      ∧ ¬ ("err".data <:+: (buildRsCompileFailMsg [101, 114, 114]).data) := by
  decide

/-- C7 (code bug): the cfg dispatch in `zig_build/src/lib.rs` selects the
linux-x86_64 provisioner on an x86_64 macOS host (macOS is a `unix` target
and the bare `macos` identifier is never set by rustc, so the macos variant
is unreachable on every host); the supported linux and windows triples do
select their matching variant, each with its own pinned version, and
non-x86_64 triples select nothing. -/
theorem c7_macos_triple_selects_linux_toolchain :
    importsLinuxZigBin ⟨"x86_64", "macos"⟩ = true
      ∧ importsMacosZigBin ⟨"x86_64", "macos"⟩ = false
      ∧ importsWindowsZigBin ⟨"x86_64", "macos"⟩ = false
      ∧ importsLinuxZigBin ⟨"x86_64", "linux"⟩ = true
      ∧ importsWindowsZigBin ⟨"x86_64", "linux"⟩ = false
      ∧ importsWindowsZigBin ⟨"x86_64", "windows"⟩ = true
      ∧ importsLinuxZigBin ⟨"x86_64", "windows"⟩ = false
      ∧ importsLinuxZigBin ⟨"aarch64", "linux"⟩ = false
      ∧ importsWindowsZigBin ⟨"aarch64", "linux"⟩ = false
      ∧ (∀ t : HostTriple, importsMacosZigBin t = false)
      ∧ binLinuxRELEASE ≠ windowsRELEASE := by
  refine ⟨by decide, by decide, by decide, by decide, by decide, by decide,
    by decide, by decide, by decide, ?_, by decide⟩
  intro t
  simp [importsMacosZigBin, cfgBareMacos]

/-- C8 (confirmed): for every source path ending in `.zig`, the binding file
path computed by `zig_build::lib` is the adjacent same-basename path with the
`.rs` extension; and the binding write is a full overwrite — the written
path's content is exactly the newly generated content, independent of
whatever was stored there before. -/
theorem c8_binding_written_adjacent_same_basename (base : List Nat)
    (contents : String → Option String) (p c : String) :
    bindingOutBytes (base ++ zigExt) = some (base ++ rsExt)
      ∧ writeFileAt contents p c p = some c :=
  ⟨bindingOutBytes_zig base, by simp [writeFileAt]⟩

/-- C9 (confirmed): both compiler invocations use `build-lib` as the leading
command with `-fPIC` and `--bundle-compiler-rt`, pass `--output-dir`
immediately followed by the output directory, and put the source path last;
`--library c` is passed exactly by the pipeline that also generates the
host-callable header (`zig_build::lib`, whose trace contains the Direction-A
event) and not by `build.rs` (evaluated at its concrete argument values);
and for both pipelines exit code 0 means success while nonzero exit means
failure. -/
theorem c9_invocation_surface (lib_dir src path name out_dir project_dir : String)
    (c : Nat) (st : List Nat) :
    (buildRsArgs lib_dir src).head? = some "build-lib"
      ∧ (libArgs lib_dir src).head? = some "build-lib"
      ∧ "-fPIC" ∈ buildRsArgs lib_dir src
      ∧ "--bundle-compiler-rt" ∈ buildRsArgs lib_dir src
      ∧ "-fPIC" ∈ libArgs lib_dir src
      ∧ "--bundle-compiler-rt" ∈ libArgs lib_dir src
      ∧ (∃ i, (buildRsArgs lib_dir src)[i]? = some "--output-dir"
          ∧ (buildRsArgs lib_dir src)[i + 1]? = some lib_dir)
      ∧ (∃ i, (libArgs lib_dir src)[i]? = some "--output-dir"
          ∧ (libArgs lib_dir src)[i + 1]? = some lib_dir)
      ∧ (buildRsArgs lib_dir src).getLast? = some src
      ∧ (libArgs lib_dir src).getLast? = some src
      ∧ adjacentPair "--library" "c" (libArgs lib_dir src) = true
      ∧ Event.bindingA ∈ (libRun path name out_dir project_dir (.exited 0 st)).trace
      ∧ adjacentPair "--library" "c" (buildRsArgs "/o/zig-lib" "/p/src/ziggy.zig") = false
      ∧ Event.bindingA ∉ (buildRsRun "/p" "/o" (.exited 0 [])).trace
      ∧ (libRun path name out_dir project_dir (.exited 0 st)).success = true
      ∧ (libRun path name out_dir project_dir (.exited (c + 1) st)).success = false
      ∧ (buildRsRun project_dir out_dir (.exited 0 st)).success = true
      ∧ (buildRsRun project_dir out_dir (.exited (c + 1) st)).success = false :=
  ⟨rfl, rfl,
   .tail _ (.head _),
   .tail _ (.tail _ (.head _)),
   .tail _ (.tail _ (.tail _ (.head _))),
   .tail _ (.tail _ (.tail _ (.tail _ (.head _)))),
   ⟨3, rfl, rfl⟩,
   ⟨5, rfl, rfl⟩,
   rfl, rfl, rfl,
   .tail _ (.head _),
   by decide,
   by decide,
   rfl, rfl, rfl, rfl⟩

/-- C10 (confirmed): `zig_build::lib` derives the binding output path by
cutting exactly the last 4 bytes of the concatenated source path and
appending `.rs`: a path ending in `.zig` yields the same-basename `.rs`
path; no check that the path ends in `.zig` is made (a path ending in `.c`
is happily cut to a different basename); and when the 4-bytes-from-the-end
cut lands inside a multi-byte UTF-8 character the slice panics. -/
theorem c10_byte_slice_semantics :
    bindingOutBytes [115, 111, 117, 114, 99, 101, 46, 99]
        = some [115, 111, 117, 114, 46, 114, 115]
      ∧ bindingOutBytes [226, 130, 172, 195, 169] = none
      ∧ ∀ base : List Nat, bindingOutBytes (base ++ zigExt) = some (base ++ rsExt) :=
  ⟨by decide, by decide, bindingOutBytes_zig⟩

end ZigWithCargo
